import Mathlib

/-!
Shallow embedding of the GuardianAI dispute lifecycle module
(`src/modules/dispute/dispute_handler.py`) and proofs about its claims.

Modelling conventions:
* Python dicts holding the dispute record become Lean structures; keys that a
  given writer never sets become `Option` fields left at `none`.
* The in-memory store `self.disputes` (a Python dict keyed by `dispute_id`,
  insertion ordered, overwriting in place) becomes an association list with
  `Store.put` replacing in place or appending at the end.
* Every `datetime.now()` call inside one operation is modelled by a single
  `now : Nat` argument to that operation (wall-clock seconds); ISO formatting
  is irrelevant to the claims, so timestamps stay `Nat`.
* `status` and `arbitration_method` are stored as strings, exactly as the
  source stores `Enum.value` strings (the source accepts an enum instance or a
  raw string and normalises to the string; we model the string path).
* Python truthiness tests (`if not d.get("settlement_offer")`,
  `if d.get("arbitration_method")`) are modelled faithfully: `None` and the
  empty string are falsy.
* Each operation returns its Python result dict (as a structure, or
  `Res.err msg` for the `{"success": False, "error": msg}` shape) together
  with the updated store.
-/

namespace GuardianAI

/-- The `DisputeStatus` enum of the source. -/
inductive DisputeStatus where
  | PENDING
  | ARBITRATION
  | SETTLEMENT
  | RESOLVED
  | REJECTED
deriving DecidableEq, Repr

/-- String value of each `DisputeStatus` member, as in the source. -/
def DisputeStatus.value : DisputeStatus → String
  | .PENDING => "pending"
  | .ARBITRATION => "arbitration"
  | .SETTLEMENT => "settlement"
  | .RESOLVED => "resolved"
  | .REJECTED => "rejected"

/-- The `ArbitrationMethod` enum of the source. -/
inductive ArbitrationMethod where
  | DAO_VOTING
  | SINGLE_ARBITER
  | EXPERT_PANEL
deriving DecidableEq, Repr

/-- String value of each `ArbitrationMethod` member, as in the source. -/
def ArbitrationMethod.value : ArbitrationMethod → String
  | .DAO_VOTING => "dao_voting"
  | .SINGLE_ARBITER => "single_arbiter"
  | .EXPERT_PANEL => "expert_panel"

/-- One audit-history entry, the dict appended to `dispute["history"]`. -/
structure HistoryEntry where
  action : String
  timestamp : Nat
  actor : String
  details : String
deriving DecidableEq, Repr

/-- The `settlement_offer` dict.  `responder` and `responded_at` are absent
until `respond_to_settlement` sets them. -/
structure SettlementOffer where
  proposer : String
  terms : String
  proposed_at : Nat
  status : String
  responder : Option String := none
  responded_at : Option Nat := none
deriving DecidableEq, Repr

/-- The `resolution` dict.  `resolve_dispute` writes `type`, `details`,
`resolver`, `resolved_at`; `respond_to_settlement(accepted=True)` writes
`type`, `terms`, `resolved_at`.  Keys a writer does not set stay `none`. -/
structure Resolution where
  type : String
  details : Option String := none
  resolver : Option String := none
  terms : Option String := none
  resolved_at : Nat
deriving DecidableEq, Repr

/-- The `arbitration_data` dict: the caller-supplied payload (opaque, kept as
an optional string) plus the `start_date` and `end_date` keys the engine adds. -/
structure ArbitrationData where
  extra : Option String
  start_date : Nat
  end_date : Nat
deriving DecidableEq, Repr

/-- The dispute record created by `create_dispute` and mutated by the engine. -/
structure Dispute where
  dispute_id : String
  creator_address : String
  token_id : String
  respondent_address : Option String
  infringement_data : String
  status : String
  created_at : Nat
  updated_at : Nat
  resolution : Option Resolution
  arbitration_method : Option String
  arbitration_data : Option ArbitrationData
  settlement_offer : Option SettlementOffer
  freeze_status : Bool
  history : List HistoryEntry
deriving DecidableEq, Repr

/-- The in-memory store `self.disputes`: an insertion-ordered dict keyed by
`dispute_id`, modelled as an association list. -/
abbrev Store := List (String × Dispute)

/-- Dict lookup `self.disputes[k]` / membership test `k in self.disputes`. -/
def Store.get (s : Store) (k : String) : Option Dispute :=
  match s with
  | [] => none
  | (k2, d) :: rest => if k2 = k then some d else Store.get rest k

/-- Dict assignment `self.disputes[k] = d`: overwrite in place if the key
exists, else append (Python dicts preserve insertion order). -/
def Store.put (s : Store) (k : String) (d : Dispute) : Store :=
  match s with
  | [] => [(k, d)]
  | (k2, d2) :: rest => if k2 = k then (k, d) :: rest else (k2, d2) :: Store.put rest k d

/-- Value of `config.ARBITRATION_PERIOD_DAYS` (env default "7"). -/
def ARBITRATION_PERIOD_DAYS : Nat := 7

/-- Seconds in a day, for `timedelta(days=n)` on `Nat` timestamps. -/
def secondsPerDay : Nat := 86400

/-- Python truthiness of an optional string: `None` and `""` are falsy. -/
def truthyOptStr : Option String → Bool
  | none => false
  | some s => s != ""

/-- Python `x or y` where `x` is an optional string (used for the `details`
fallback in `update_dispute_status`): `None` and `""` both fall back. -/
def orElseStr (x : Option String) (y : String) : String :=
  match x with
  | none => y
  | some s => if s = "" then y else s

/-- The error message of the `{"success": False, "error": ...}` dict returned
for an unknown `dispute_id`. -/
def notFoundMsg (dispute_id : String) : String :=
  "Dispute " ++ dispute_id ++ " not found"

/-- The error message returned by `respond_to_settlement` when the dispute has
no settlement offer. -/
def noOfferMsg : String := "No settlement offer found for this dispute"

/-- Result of a fallible operation: a success payload or the
`{"success": False, "error": msg}` dict. -/
inductive Res (α : Type) where
  | ok (payload : α)
  | err (error : String)
deriving DecidableEq, Repr

/-- Success flag of a result. -/
def Res.isOk {α : Type} : Res α → Bool
  | .ok _ => true
  | .err _ => false

/-- Result dict of `create_dispute`. -/
structure CreateResult where
  dispute_id : String
  status : String
  created_at : Nat
deriving DecidableEq, Repr

/-- Result dict of `update_dispute_status`. -/
structure UpdateResult where
  dispute_id : String
  status : String
  updated_at : Nat
deriving DecidableEq, Repr

/-- Result dict of `freeze_asset` / `unfreeze_asset`. -/
structure FreezeResult where
  dispute_id : String
  freeze_status : Bool
  updated_at : Nat
deriving DecidableEq, Repr

/-- Result dict of `initiate_arbitration`. -/
structure ArbitrationResult where
  dispute_id : String
  arbitration_method : Option String
  arbitration_data : Option ArbitrationData
  status : String
  updated_at : Nat
deriving DecidableEq, Repr

/-- Result dict of `propose_settlement`. -/
structure ProposalResult where
  dispute_id : String
  settlement_offer : Option SettlementOffer
  status : String
  updated_at : Nat
deriving DecidableEq, Repr

/-- Result dict of `respond_to_settlement`. -/
structure ResponseResult where
  dispute_id : String
  settlement_status : String
  dispute_status : String
  updated_at : Nat
deriving DecidableEq, Repr

/-- Result dict of `resolve_dispute`. -/
structure ResolveResult where
  dispute_id : String
  resolution : Option Resolution
  status : String
  updated_at : Nat
deriving DecidableEq, Repr

/-- `DisputeHandler.create_dispute`: allocate a fresh record in `Pending`
with a one-entry history and store it under
`"dispute_" ++ token_id ++ "_" ++ epoch seconds`. -/
def create_dispute (store : Store) (creator_address token_id infringement_data : String)
    (respondent_address : Option String) (now : Nat) : CreateResult × Store :=
  let dispute_id := "dispute_" ++ token_id ++ "_" ++ toString now
  let dispute : Dispute := {
    dispute_id := dispute_id,
    creator_address := creator_address,
    token_id := token_id,
    respondent_address := respondent_address,
    infringement_data := infringement_data,
    status := DisputeStatus.PENDING.value,
    created_at := now,
    updated_at := now,
    resolution := none,
    arbitration_method := none,
    arbitration_data := none,
    settlement_offer := none,
    freeze_status := false,
    history := [{ action := "dispute_created", timestamp := now, actor := creator_address,
                  details := "Dispute created based on infringement detection" }] }
  ({ dispute_id := dispute_id, status := dispute.status, created_at := dispute.created_at },
   store.put dispute_id dispute)

/-- `DisputeHandler.get_dispute`: return the record, or the not-found error. -/
def get_dispute (store : Store) (dispute_id : String) : Res Dispute :=
  match store.get dispute_id with
  | none => .err (notFoundMsg dispute_id)
  | some d => .ok d

/-- `DisputeHandler.update_dispute_status`: overwrite `status`, refresh
`updated_at`, append a `status_updated` history entry. -/
def update_dispute_status (store : Store) (dispute_id status actor_address : String)
    (details : Option String) (now : Nat) : Res UpdateResult × Store :=
  match store.get dispute_id with
  | none => (.err (notFoundMsg dispute_id), store)
  | some d =>
    let d2 := { d with
      status := status,
      updated_at := now,
      history := d.history ++
        [{ action := "status_updated", timestamp := now, actor := actor_address,
           details := orElseStr details ("Status updated to " ++ status) }] }
    (.ok { dispute_id := dispute_id, status := d2.status, updated_at := d2.updated_at },
     store.put dispute_id d2)

/-- `DisputeHandler.freeze_asset`: set `freeze_status := true`, refresh
`updated_at`, append an `asset_frozen` history entry. -/
def freeze_asset (store : Store) (dispute_id actor_address : String) (now : Nat) :
    Res FreezeResult × Store :=
  match store.get dispute_id with
  | none => (.err (notFoundMsg dispute_id), store)
  | some d =>
    let d2 := { d with
      freeze_status := true,
      updated_at := now,
      history := d.history ++
        [{ action := "asset_frozen", timestamp := now, actor := actor_address,
           details := "Asset frozen during dispute resolution" }] }
    (.ok { dispute_id := dispute_id, freeze_status := true, updated_at := d2.updated_at },
     store.put dispute_id d2)

/-- `DisputeHandler.unfreeze_asset`: set `freeze_status := false`, refresh
`updated_at`, append an `asset_unfrozen` history entry. -/
def unfreeze_asset (store : Store) (dispute_id actor_address : String) (now : Nat) :
    Res FreezeResult × Store :=
  match store.get dispute_id with
  | none => (.err (notFoundMsg dispute_id), store)
  | some d =>
    let d2 := { d with
      freeze_status := false,
      updated_at := now,
      history := d.history ++
        [{ action := "asset_unfrozen", timestamp := now, actor := actor_address,
           details := "Asset unfrozen after dispute resolution" }] }
    (.ok { dispute_id := dispute_id, freeze_status := false, updated_at := d2.updated_at },
     store.put dispute_id d2)

/-- `DisputeHandler.initiate_arbitration`: set the method and arbitration
window, move status to `Arbitration`, append an `arbitration_initiated`
entry. -/
def initiate_arbitration (store : Store) (dispute_id method actor_address : String)
    (arbitration_data : Option String) (now : Nat) : Res ArbitrationResult × Store :=
  match store.get dispute_id with
  | none => (.err (notFoundMsg dispute_id), store)
  | some d =>
    let arb : ArbitrationData := {
      extra := arbitration_data,
      start_date := now,
      end_date := now + ARBITRATION_PERIOD_DAYS * secondsPerDay }
    let d2 := { d with
      arbitration_method := some method,
      arbitration_data := some arb,
      status := DisputeStatus.ARBITRATION.value,
      updated_at := now,
      history := d.history ++
        [{ action := "arbitration_initiated", timestamp := now, actor := actor_address,
           details := "Arbitration initiated using " ++ method ++ " method" }] }
    (.ok { dispute_id := dispute_id, arbitration_method := d2.arbitration_method,
           arbitration_data := d2.arbitration_data, status := d2.status,
           updated_at := d2.updated_at },
     store.put dispute_id d2)

/-- `DisputeHandler.propose_settlement`: store a pending offer, move status to
`Settlement`, append a `settlement_proposed` entry. -/
def propose_settlement (store : Store) (dispute_id proposer_address settlement_terms : String)
    (now : Nat) : Res ProposalResult × Store :=
  match store.get dispute_id with
  | none => (.err (notFoundMsg dispute_id), store)
  | some d =>
    let offer : SettlementOffer := {
      proposer := proposer_address,
      terms := settlement_terms,
      proposed_at := now,
      status := "pending" }
    let d2 := { d with
      settlement_offer := some offer,
      status := DisputeStatus.SETTLEMENT.value,
      updated_at := now,
      history := d.history ++
        [{ action := "settlement_proposed", timestamp := now, actor := proposer_address,
           details := "Settlement proposed" }] }
    (.ok { dispute_id := dispute_id, settlement_offer := d2.settlement_offer,
           status := d2.status, updated_at := d2.updated_at },
     store.put dispute_id d2)

/-- `DisputeHandler.respond_to_settlement`: require an existing offer (its
dict is always non-empty, so Python truthiness reduces to presence), mark it
accepted or rejected, and either resolve the dispute with a settlement
resolution or route it back to `Arbitration` (truthy `arbitration_method`) or
`Pending`; append a `settlement_response` entry. -/
def respond_to_settlement (store : Store) (dispute_id responder_address : String)
    (accepted : Bool) (now : Nat) : Res ResponseResult × Store :=
  match store.get dispute_id with
  | none => (.err (notFoundMsg dispute_id), store)
  | some d =>
    match d.settlement_offer with
    | none => (.err noOfferMsg, store)
    | some offer =>
      let offer2 : SettlementOffer := { offer with
        status := if accepted then "accepted" else "rejected",
        responded_at := some now,
        responder := some responder_address }
      let newStatus :=
        if accepted then DisputeStatus.RESOLVED.value
        else if truthyOptStr d.arbitration_method then DisputeStatus.ARBITRATION.value
        else DisputeStatus.PENDING.value
      let newResolution :=
        if accepted then
          some ({ type := "settlement", terms := some offer2.terms,
                  resolved_at := now } : Resolution)
        else d.resolution
      let d2 := { d with
        settlement_offer := some offer2,
        status := newStatus,
        resolution := newResolution,
        updated_at := now,
        history := d.history ++
          [{ action := "settlement_response", timestamp := now, actor := responder_address,
             details := "Settlement " ++ (if accepted then "accepted" else "rejected") }] }
      (.ok { dispute_id := dispute_id, settlement_status := offer2.status,
             dispute_status := d2.status, updated_at := d2.updated_at },
       store.put dispute_id d2)

/-- `DisputeHandler.resolve_dispute`: write the resolution record, move status
to `Resolved`, append a `dispute_resolved` entry, then — if the asset was
frozen — invoke `unfreeze_asset` with the resolver as actor (cascading second
entry); the result is read back from the store afterwards. -/
def resolve_dispute (store : Store)
    (dispute_id resolver_address resolution_type resolution_details : String)
    (now : Nat) : Res ResolveResult × Store :=
  match store.get dispute_id with
  | none => (.err (notFoundMsg dispute_id), store)
  | some d =>
    let d2 := { d with
      resolution := some { type := resolution_type, details := some resolution_details,
                           resolver := some resolver_address, resolved_at := now }
      status := DisputeStatus.RESOLVED.value,
      updated_at := now,
      history := d.history ++
        [{ action := "dispute_resolved", timestamp := now, actor := resolver_address,
           details := "Dispute resolved via " ++ resolution_type }] }
    let store2 := Store.put store dispute_id d2
    let store3 :=
      if d2.freeze_status then (unfreeze_asset store2 dispute_id resolver_address now).2
      else store2
    let dFinal := (Store.get store3 dispute_id).getD d2
    (.ok { dispute_id := dispute_id, resolution := dFinal.resolution,
           status := dFinal.status, updated_at := dFinal.updated_at },
     store3)

/-- `DisputeHandler.get_active_disputes`: the stored disputes (in insertion
order) whose status is not `resolved`, optionally filtered to those where the
address matches creator or respondent. -/
def get_active_disputes (store : Store) (address : Option String) : List Dispute :=
  (store.filter (fun p =>
    p.2.status != DisputeStatus.RESOLVED.value &&
    (match address with
     | none => true
     | some a => p.2.creator_address == a || p.2.respondent_address == some a))).map
    (fun p => p.2)

/-- `DisputeHandler.get_dispute_history`: the history list, or the not-found
error. -/
def get_dispute_history (store : Store) (dispute_id : String) : Res (List HistoryEntry) :=
  match store.get dispute_id with
  | none => .err (notFoundMsg dispute_id)
  | some d => .ok d.history

/-! Section: Basic store lemmas -/

theorem Store.get_put_self (s : Store) (k : String) (d : Dispute) :
    Store.get (Store.put s k d) k = some d := by
  induction s with
  | nil => simp [Store.put, Store.get]
  | cons p rest ih =>
    obtain ⟨k2, d2⟩ := p
    by_cases h : k2 = k
    · simp [Store.put, Store.get, h]
    · simp [Store.put, Store.get, h, ih]

theorem Store.get_put_ne (s : Store) (k k2 : String) (d : Dispute) (h : k2 ≠ k) :
    Store.get (Store.put s k d) k2 = Store.get s k2 := by
  have h2 : k ≠ k2 := Ne.symm h
  induction s with
  | nil => simp [Store.put, Store.get, h2]
  | cons p rest ih =>
    obtain ⟨k3, d3⟩ := p
    by_cases h3 : k3 = k
    · subst h3
      simp [Store.put, Store.get, h2]
    · simp [Store.put, Store.get, h3, ih]

/-! Section: Sample scenario shared by several witnesses -/

/-- Sample store: the store after one `create_dispute` for token `42` at
time 100. -/
def sampleStore : Store := (create_dispute [] "0xCAFE" "42" "infringement" none 100).2

/-- The `dispute_id` allocated in `sampleStore`. -/
def sampleId : String := "dispute_42_100"

/-- The record `create_dispute` placed in `sampleStore`, spelled out for use
as an explicit witness argument. -/
def sampleDispute : Dispute := {
  dispute_id := "dispute_42_100",
  creator_address := "0xCAFE",
  token_id := "42",
  respondent_address := none,
  infringement_data := "infringement",
  status := "pending",
  created_at := 100,
  updated_at := 100,
  resolution := none,
  arbitration_method := none,
  arbitration_data := none,
  settlement_offer := none,
  freeze_status := false,
  history := [{ action := "dispute_created", timestamp := 100, actor := "0xCAFE",
                details := "Dispute created based on infringement detection" }] }

/-! Section: C6 — unknown dispute ids -/

/-- C6: every operation invoked with a `dispute_id` not present in the store
returns the structured not-found error (not a raised fault) and returns the
store unchanged, so no stored dispute is modified. -/
theorem notFound_no_mutation (s : Store) (k : String) (h : Store.get s k = none)
    (status actor method proposer terms responder resolver rtype rdetails : String)
    (details arbData : Option String) (accepted : Bool) (now : Nat) :
    get_dispute s k = .err (notFoundMsg k) ∧
    update_dispute_status s k status actor details now = (.err (notFoundMsg k), s) ∧
    freeze_asset s k actor now = (.err (notFoundMsg k), s) ∧
    unfreeze_asset s k actor now = (.err (notFoundMsg k), s) ∧
    initiate_arbitration s k method actor arbData now = (.err (notFoundMsg k), s) ∧
    propose_settlement s k proposer terms now = (.err (notFoundMsg k), s) ∧
    respond_to_settlement s k responder accepted now = (.err (notFoundMsg k), s) ∧
    resolve_dispute s k resolver rtype rdetails now = (.err (notFoundMsg k), s) ∧
    get_dispute_history s k = .err (notFoundMsg k) := by
  simp [get_dispute, update_dispute_status, freeze_asset, unfreeze_asset,
    initiate_arbitration, propose_settlement, respond_to_settlement, resolve_dispute,
    get_dispute_history, h]

/-- Witness for C6 at a concrete input: the empty store and an arbitrary id. -/
theorem notFound_no_mutation_witness :
    get_dispute ([] : Store) "dispute_42_100" = .err (notFoundMsg "dispute_42_100") ∧
    resolve_dispute ([] : Store) "dispute_42_100" "0xR" "arbitration" "done" 7 =
      (.err (notFoundMsg "dispute_42_100"), ([] : Store)) :=
  ⟨(notFound_no_mutation [] "dispute_42_100" rfl "s" "a" "m" "p" "t" "r" "0xR" "arbitration"
      "done" none none true 7).1,
   (notFound_no_mutation [] "dispute_42_100" rfl "s" "a" "m" "p" "t" "r" "0xR" "arbitration"
      "done" none none true 7).2.2.2.2.2.2.2.1⟩

/-! Section: C5 — respond_to_settlement with no offer -/

/-- C5: on an existing dispute whose `settlement_offer` is `None`,
`respond_to_settlement` returns the structured no-offer error and returns
the store unchanged — no history entry, no field modified. -/
theorem respond_no_offer (s : Store) (k responder : String) (accepted : Bool) (now : Nat)
    (d : Dispute) (hd : Store.get s k = some d) (hoff : d.settlement_offer = none) :
    respond_to_settlement s k responder accepted now = (.err noOfferMsg, s) := by
  simp [respond_to_settlement, hd, hoff]

/-- Witness for C5 at a concrete input: the freshly created sample dispute,
which has no settlement offer. -/
theorem respond_no_offer_witness :
    respond_to_settlement sampleStore sampleId "0xBEEF" true 101 = (.err noOfferMsg, sampleStore) :=
  respond_no_offer sampleStore sampleId "0xBEEF" true 101 sampleDispute (by decide) (by decide)

/-! Section: C10 — freeze/unfreeze frame conditions -/

/-- C10: on an existing dispute, `freeze_asset` and `unfreeze_asset` always
succeed (no status or freeze-state guard) and modify only `freeze_status`,
`updated_at`, and `history` (appending exactly one entry); every other field
is untouched, as the record-update form of the new stored record shows. -/
theorem freeze_unfreeze_frame (s : Store) (k actor : String) (now : Nat)
    (d : Dispute) (hd : Store.get s k = some d) :
    (freeze_asset s k actor now).1.isOk = true ∧
    (unfreeze_asset s k actor now).1.isOk = true ∧
    ∃ ef eu : HistoryEntry,
      Store.get (freeze_asset s k actor now).2 k =
        some { d with freeze_status := true, updated_at := now,
                      history := d.history ++ [ef] } ∧
      Store.get (unfreeze_asset s k actor now).2 k =
        some { d with freeze_status := false, updated_at := now,
                      history := d.history ++ [eu] } := by
  refine ⟨by simp [freeze_asset, hd, Res.isOk], by simp [unfreeze_asset, hd, Res.isOk],
    { action := "asset_frozen", timestamp := now, actor := actor,
      details := "Asset frozen during dispute resolution" },
    { action := "asset_unfrozen", timestamp := now, actor := actor,
      details := "Asset unfrozen after dispute resolution" },
    ?_, ?_⟩
  · simp [freeze_asset, hd, Store.get_put_self]
  · simp [unfreeze_asset, hd, Store.get_put_self]

/-- Witness for C10 at a concrete input: the sample dispute (status
`pending`, unfrozen). -/
theorem freeze_unfreeze_frame_witness :
    (freeze_asset sampleStore sampleId "0xA" 101).1.isOk = true ∧
    (unfreeze_asset sampleStore sampleId "0xA" 101).1.isOk = true ∧
    ∃ ef eu : HistoryEntry,
      Store.get (freeze_asset sampleStore sampleId "0xA" 101).2 sampleId =
        some { sampleDispute with freeze_status := true, updated_at := 101,
                                  history := sampleDispute.history ++ [ef] } ∧
      Store.get (unfreeze_asset sampleStore sampleId "0xA" 101).2 sampleId =
        some { sampleDispute with freeze_status := false, updated_at := 101,
                                  history := sampleDispute.history ++ [eu] } :=
  freeze_unfreeze_frame sampleStore sampleId "0xA" 101 sampleDispute (by decide)

/-! Section: C3 — settlement acceptance resolves the dispute -/

/-- C3: on an existing dispute, `propose_settlement` followed by
`respond_to_settlement(accepted=true)` leaves the stored dispute with status
`resolved` and `resolution.type = "settlement"`, and the response result
reports `settlement_status = "accepted"` and `dispute_status = "resolved"`. -/
theorem settlement_accept_resolves (s : Store) (k proposer terms responder : String)
    (t1 t2 : Nat) (d : Dispute) (hd : Store.get s k = some d) :
    (∃ d2 : Dispute,
      Store.get (respond_to_settlement (propose_settlement s k proposer terms t1).2
          k responder true t2).2 k = some d2 ∧
      d2.status = DisputeStatus.RESOLVED.value ∧
      ∃ rn : Resolution, d2.resolution = some rn ∧ rn.type = "settlement") ∧
    (respond_to_settlement (propose_settlement s k proposer terms t1).2
        k responder true t2).1 =
      .ok { dispute_id := k, settlement_status := "accepted",
            dispute_status := DisputeStatus.RESOLVED.value, updated_at := t2 } := by
  constructor
  · simp only [propose_settlement, respond_to_settlement, hd, Store.get_put_self,
      if_true, ite_true]
    exact ⟨_, rfl, rfl, _, rfl, rfl⟩
  · simp [propose_settlement, respond_to_settlement, hd, Store.get_put_self,
      DisputeStatus.value]

/-- Witness for C3 at a concrete input: propose on the sample dispute at time
101, accept at time 102. -/
theorem settlement_accept_resolves_witness :
    (∃ d2 : Dispute,
      Store.get (respond_to_settlement (propose_settlement sampleStore sampleId "0xCAFE"
          "eth 2" 101).2 sampleId "0xBEEF" true 102).2 sampleId = some d2 ∧
      d2.status = DisputeStatus.RESOLVED.value ∧
      ∃ rn : Resolution, d2.resolution = some rn ∧ rn.type = "settlement") ∧
    (respond_to_settlement (propose_settlement sampleStore sampleId "0xCAFE"
        "eth 2" 101).2 sampleId "0xBEEF" true 102).1 =
      .ok { dispute_id := sampleId, settlement_status := "accepted",
            dispute_status := DisputeStatus.RESOLVED.value, updated_at := 102 } :=
  settlement_accept_resolves sampleStore sampleId "0xCAFE" "eth 2" "0xBEEF" 101 102
    sampleDispute (by decide)

/-! Section: C4 — settlement rejection routing

The source routes a rejected settlement with `if d.get("arbitration_method")`,
i.e. Python truthiness: the empty string — storable through the public API via
`initiate_arbitration(method="")` — is non-null but falsy and routes to
`pending`, refuting the claim's "non-null" reading.  The amended claim uses
truthiness. -/

/-- Store after creating a dispute for token `7` at time 50. -/
def c4Store0 : Store := (create_dispute [] "0xCAFE" "7" "inf" none 50).2

/-- Store after `initiate_arbitration` with the empty-string method. -/
def c4Store1 : Store := (initiate_arbitration c4Store0 "dispute_7_50" "" "0xA" none 51).2

/-- Store after a settlement proposal. -/
def c4Store2 : Store := (propose_settlement c4Store1 "dispute_7_50" "0xCAFE" "terms" 52).2

/-- Store after rejecting that settlement. -/
def c4Store3 : Store := (respond_to_settlement c4Store2 "dispute_7_50" "0xBEEF" false 53).2

/-- C4 counterexample: a dispute whose `arbitration_method` is the non-null
empty string has its rejected settlement routed to `pending`, not
`arbitration` as the claim states. -/
theorem settlement_reject_nonnull_counterexample :
    (Store.get c4Store2 "dispute_7_50").bind Dispute.arbitration_method = some "" ∧
    ((Store.get c4Store2 "dispute_7_50").bind Dispute.settlement_offer).isSome = true ∧
    (Store.get c4Store3 "dispute_7_50").map Dispute.status =
      some DisputeStatus.PENDING.value := by
  decide

/-- C4 amended: on an existing dispute with a settlement offer,
`respond_to_settlement(accepted=false)` sets status to `arbitration` when
`arbitration_method` is truthy (non-null and non-empty) and to `pending`
otherwise, and marks the offer `rejected` in both cases. -/
theorem settlement_reject_routes (s : Store) (k responder : String) (now : Nat)
    (d : Dispute) (offer : SettlementOffer)
    (hd : Store.get s k = some d) (hoff : d.settlement_offer = some offer) :
    ∃ d2 : Dispute,
      Store.get (respond_to_settlement s k responder false now).2 k = some d2 ∧
      d2.status = (if truthyOptStr d.arbitration_method then DisputeStatus.ARBITRATION.value
                   else DisputeStatus.PENDING.value) ∧
      ∃ o2 : SettlementOffer, d2.settlement_offer = some o2 ∧ o2.status = "rejected" := by
  simp only [respond_to_settlement, hd, hoff, Store.get_put_self, Bool.false_eq_true,
    if_false, ite_false]
  exact ⟨_, rfl, rfl, _, rfl, rfl⟩

/-- The record stored in `c4Store2` under `dispute_7_50`, spelled out for use
as an explicit witness argument. -/
def c4Dispute : Dispute := {
  dispute_id := "dispute_7_50",
  creator_address := "0xCAFE",
  token_id := "7",
  respondent_address := none,
  infringement_data := "inf",
  status := "settlement",
  created_at := 50,
  updated_at := 52,
  resolution := none,
  arbitration_method := some "",
  arbitration_data := some { extra := none, start_date := 51,
                             end_date := 51 + ARBITRATION_PERIOD_DAYS * secondsPerDay },
  settlement_offer := some { proposer := "0xCAFE", terms := "terms", proposed_at := 52,
                             status := "pending" },
  freeze_status := false,
  history := [{ action := "dispute_created", timestamp := 50, actor := "0xCAFE",
                details := "Dispute created based on infringement detection" },
              { action := "arbitration_initiated", timestamp := 51, actor := "0xA",
                details := "Arbitration initiated using  method" },
              { action := "settlement_proposed", timestamp := 52, actor := "0xCAFE",
                details := "Settlement proposed" }] }

/-- The pending offer held by `c4Dispute`. -/
def c4Offer : SettlementOffer :=
  { proposer := "0xCAFE", terms := "terms", proposed_at := 52, status := "pending" }

/-- Witness for the amended C4 at a concrete input: rejecting the settlement
of `c4Store2` (whose `arbitration_method` is the falsy empty string) routes
to `pending`. -/
theorem settlement_reject_routes_witness :
    ∃ d2 : Dispute,
      Store.get (respond_to_settlement c4Store2 "dispute_7_50" "0xBEEF" false 53).2
        "dispute_7_50" = some d2 ∧
      d2.status = (if truthyOptStr c4Dispute.arbitration_method
                   then DisputeStatus.ARBITRATION.value
                   else DisputeStatus.PENDING.value) ∧
      ∃ o2 : SettlementOffer, d2.settlement_offer = some o2 ∧ o2.status = "rejected" :=
  settlement_reject_routes c4Store2 "dispute_7_50" "0xBEEF" 53 c4Dispute c4Offer
    (by decide) (by decide)

/-! Section: C1 — terminality of Resolved and Rejected

The source has no guard on any operation's current status, so a Resolved
dispute can be transitioned out of `resolved` by, e.g.,
`initiate_arbitration`; the claim fails.  Only `freeze_asset` and
`unfreeze_asset` never touch the status field. -/

/-- Store holding one dispute that has been resolved. -/
def c1Store1 : Store :=
  (resolve_dispute sampleStore "dispute_42_100" "0xR" "arbitration" "done" 101).2

/-- Store after re-arbitrating the already-resolved dispute. -/
def c1Store2 : Store :=
  (initiate_arbitration c1Store1 "dispute_42_100" "dao_voting" "0xA" none 102).2

/-- C1 counterexample: a dispute with status `resolved` is moved to
`arbitration` by `initiate_arbitration`, so `Resolved` is not terminal. -/
theorem terminal_escape_counterexample :
    (Store.get c1Store1 "dispute_42_100").map Dispute.status =
      some DisputeStatus.RESOLVED.value ∧
    (initiate_arbitration c1Store1 "dispute_42_100" "dao_voting" "0xA" none 102).1.isOk
      = true ∧
    (Store.get c1Store2 "dispute_42_100").map Dispute.status =
      some DisputeStatus.ARBITRATION.value := by
  decide

/-- C1 amended: among the engine's mutating operations only `freeze_asset`
and `unfreeze_asset` are guaranteed not to transition a dispute out of
`Resolved` or `Rejected` — they never change the status field at all; the
other operations carry no terminal-state guard. -/
theorem freeze_unfreeze_preserve_status (s : Store) (k actor : String) (now : Nat) :
    (Store.get (freeze_asset s k actor now).2 k).map Dispute.status =
      (Store.get s k).map Dispute.status ∧
    (Store.get (unfreeze_asset s k actor now).2 k).map Dispute.status =
      (Store.get s k).map Dispute.status := by
  cases hd : Store.get s k with
  | none => simp [freeze_asset, unfreeze_asset, hd]
  | some d => simp [freeze_asset, unfreeze_asset, hd, Store.get_put_self]

/-! Section: C7 — creation: pending status, one-entry history, id uniqueness

`create_dispute` derives the id from the token id and the whole-second clock
value alone, with no collision check; two creations for one token in the same
second yield the same id and the second overwrites the first record. -/

/-- First creation: token `42` at clock second 100. -/
def c7First : CreateResult × Store := create_dispute [] "0xAAAA" "42" "inf1" none 100

/-- Second creation in the same store: same token, same clock second. -/
def c7Second : CreateResult × Store := create_dispute c7First.2 "0xBBBB" "42" "inf2" none 100

/-- C7 evaluated at the failing input: the status and history-length parts of
the claim hold, but both creations yield the same `dispute_id` and the second
silently overwrites the first record (the store keeps a single entry, now
carrying the second creator), refuting the claimed id uniqueness. -/
theorem create_dispute_id_collision :
    c7First.1.dispute_id = "dispute_42_100" ∧
    c7Second.1.dispute_id = "dispute_42_100" ∧
    c7First.1.status = DisputeStatus.PENDING.value ∧
    (Store.get c7First.2 "dispute_42_100").map (fun d => d.history.length) = some 1 ∧
    c7Second.2.length = 1 ∧
    (Store.get c7Second.2 "dispute_42_100").map Dispute.creator_address = some "0xBBBB" := by
  decide

/-! Section: C8 — writers of the resolution field

`resolve_dispute` is not the only writer: `respond_to_settlement` with
`accepted=true` also writes `resolution`, and its record has shape
`(type, terms, resolved_at)` — no `details` or `resolver` key. -/

/-- Stored resolution at key `k` (None when the key is absent). -/
def resolutionAt (s : Store) (k : String) : Option Resolution :=
  (Store.get s k).bind Dispute.resolution

/-- Store after creating a dispute for token `9` at time 10. -/
def c8Store0 : Store := (create_dispute [] "0xCAFE" "9" "inf" none 10).2

/-- Store after proposing a settlement on it. -/
def c8Store1 : Store := (propose_settlement c8Store0 "dispute_9_10" "0xCAFE" "trade" 11).2

/-- Store after accepting that settlement. -/
def c8Store2 : Store := (respond_to_settlement c8Store1 "dispute_9_10" "0xBEEF" true 12).2

/-- C8 counterexample: after `propose_settlement` and
`respond_to_settlement(accepted=true)` — with `resolve_dispute` never called —
the dispute's `resolution` is set, and it carries `terms` but no `details` or
`resolver` field, refuting both parts of the claim. -/
theorem resolution_written_by_settlement_counterexample :
    resolutionAt c8Store2 "dispute_9_10" =
      some { type := "settlement", details := none, resolver := none,
             terms := some "trade", resolved_at := 12 } := by
  decide

/-- C8 amended: `resolution` is written by `resolve_dispute`, which sets
`(type, details, resolver, resolved_at)`, and by
`respond_to_settlement(accepted=true)`, which sets
`(type = "settlement", terms, resolved_at)` without `details` or `resolver`;
no other operation (nor a settlement rejection) modifies `resolution`. -/
theorem resolution_writers (s : Store) (k : String) (now : Nat)
    (status actor method proposer terms responder resolver rtype rdetails : String)
    (details arbData : Option String)
    (d : Dispute) (hd : Store.get s k = some d) :
    resolutionAt (update_dispute_status s k status actor details now).2 k = resolutionAt s k ∧
    resolutionAt (freeze_asset s k actor now).2 k = resolutionAt s k ∧
    resolutionAt (unfreeze_asset s k actor now).2 k = resolutionAt s k ∧
    resolutionAt (initiate_arbitration s k method actor arbData now).2 k = resolutionAt s k ∧
    resolutionAt (propose_settlement s k proposer terms now).2 k = resolutionAt s k ∧
    resolutionAt (respond_to_settlement s k responder false now).2 k = resolutionAt s k ∧
    resolutionAt (resolve_dispute s k resolver rtype rdetails now).2 k =
      some { type := rtype, details := some rdetails, resolver := some resolver,
             terms := none, resolved_at := now } ∧
    (∀ offer : SettlementOffer, d.settlement_offer = some offer →
      resolutionAt (respond_to_settlement s k responder true now).2 k =
        some { type := "settlement", details := none, resolver := none,
               terms := some offer.terms, resolved_at := now }) := by
  refine ⟨?_, ?_, ?_, ?_, ?_, ?_, ?_, ?_⟩
  · simp [update_dispute_status, hd, resolutionAt, Store.get_put_self]
  · simp [freeze_asset, hd, resolutionAt, Store.get_put_self]
  · simp [unfreeze_asset, hd, resolutionAt, Store.get_put_self]
  · simp [initiate_arbitration, hd, resolutionAt, Store.get_put_self]
  · simp [propose_settlement, hd, resolutionAt, Store.get_put_self]
  · cases hsoff : d.settlement_offer with
    | none => simp [respond_to_settlement, hd, hsoff, resolutionAt]
    | some offer => simp [respond_to_settlement, hd, hsoff, resolutionAt, Store.get_put_self]
  · cases hf : d.freeze_status with
    | false => simp [resolve_dispute, hd, hf, resolutionAt, Store.get_put_self]
    | true =>
      simp [resolve_dispute, unfreeze_asset, hd, hf, resolutionAt, Store.get_put_self]
  · intro offer hoff
    simp [respond_to_settlement, hd, hoff, resolutionAt, Store.get_put_self]

/-- Witness for the amended C8 at a concrete input: resolving the sample
dispute writes the full four-field record. -/
theorem resolution_writers_witness :
    resolutionAt (resolve_dispute sampleStore sampleId "0xR" "arbitration" "ruling" 101).2
        sampleId =
      some { type := "arbitration", details := some "ruling", resolver := some "0xR",
             terms := none, resolved_at := 101 } :=
  (resolution_writers sampleStore sampleId 101 "s" "a" "m" "p" "t" "r" "0xR" "arbitration"
    "ruling" none none sampleDispute (by decide)).2.2.2.2.2.2.1

/-! Section: C9 — active dispute filtering -/

/-- Helper for C9: whatever `resolve_dispute` leaves stored at its key has
status `resolved`. -/
theorem resolve_status_resolved (s : Store) (k resolver rtype rdetails : String) (now : Nat)
    (d2 : Dispute)
    (h : Store.get (resolve_dispute s k resolver rtype rdetails now).2 k = some d2) :
    d2.status = DisputeStatus.RESOLVED.value := by
  cases hd : Store.get s k with
  | none =>
    rw [show (resolve_dispute s k resolver rtype rdetails now).2 = s by
          simp [resolve_dispute, hd],
        hd] at h
    exact absurd h (by simp)
  | some d =>
    cases hf : d.freeze_status with
    | false =>
      simp [resolve_dispute, hd, hf, Store.get_put_self] at h
      simp [← h, DisputeStatus.value]
    | true =>
      simp [resolve_dispute, unfreeze_asset, hd, hf, Store.get_put_self] at h
      simp [← h, DisputeStatus.value]

/-- C9: `get_active_disputes` returns exactly the stored disputes whose
status is not `resolved` and which match the optional address filter
(creator or respondent); and after `resolve_dispute`, the record stored at
the resolved key no longer appears in any subsequent result. -/
theorem get_active_disputes_spec (s : Store) (address : Option String) (d : Dispute)
    (k resolver rtype rdetails : String) (now : Nat) :
    (d ∈ get_active_disputes s address ↔
      (∃ k2, (k2, d) ∈ s) ∧ d.status ≠ DisputeStatus.RESOLVED.value ∧
        ∀ a, address = some a → (d.creator_address = a ∨ d.respondent_address = some a)) ∧
    (∀ d2 : Dispute,
      Store.get (resolve_dispute s k resolver rtype rdetails now).2 k = some d2 →
      d2 ∉ get_active_disputes (resolve_dispute s k resolver rtype rdetails now).2 address) := by
  constructor
  · unfold get_active_disputes
    constructor
    · intro hmem
      obtain ⟨p, hp, rfl⟩ := List.mem_map.mp hmem
      obtain ⟨hps, hpred⟩ := List.mem_filter.mp hp
      rw [Bool.and_eq_true] at hpred
      obtain ⟨h1, h2⟩ := hpred
      refine ⟨⟨p.1, by simpa using hps⟩, by simpa [bne_iff_ne] using h1, ?_⟩
      intro a ha
      subst ha
      simpa using h2
    · rintro ⟨⟨k2, hk2⟩, hst, haddr⟩
      refine List.mem_map.mpr ⟨(k2, d), List.mem_filter.mpr ⟨hk2, ?_⟩, rfl⟩
      rw [Bool.and_eq_true]
      refine ⟨by simpa [bne_iff_ne] using hst, ?_⟩
      cases address with
      | none => rfl
      | some a => simpa using haddr a rfl
  · intro d2 hd2 hmem
    have hstatus := resolve_status_resolved s k resolver rtype rdetails now d2 hd2
    unfold get_active_disputes at hmem
    obtain ⟨p, hp, hpd⟩ := List.mem_map.mp hmem
    obtain ⟨-, hpred⟩ := List.mem_filter.mp hp
    rw [Bool.and_eq_true] at hpred
    have h1 := hpred.1
    rw [hpd, hstatus] at h1
    simp at h1

/-- The record `resolve_dispute` leaves in the sample store, spelled out for
the C9 witness. -/
def c9Resolved : Dispute :=
  { sampleDispute with
      status := "resolved",
      updated_at := 101,
      resolution := some { type := "settlement", details := some "paid",
                           resolver := some "0xR", terms := none, resolved_at := 101 },
      history := sampleDispute.history ++
        [{ action := "dispute_resolved", timestamp := 101, actor := "0xR",
           details := "Dispute resolved via settlement" }] }

/-- Witness for C9 at a concrete input: after resolving the sample dispute,
its stored record is absent from the unfiltered active list. -/
theorem get_active_disputes_spec_witness :
    c9Resolved ∉ get_active_disputes
      (resolve_dispute sampleStore sampleId "0xR" "settlement" "paid" 101).2 none :=
  (get_active_disputes_spec sampleStore none c9Resolved sampleId "0xR" "settlement"
    "paid" 101).2 c9Resolved (by decide)

/-! Section: C2 â append-only history under sequences of mutating operations -/

/-- One mutating engine operation on a fixed dispute: the operation tag and
all its arguments except the dispute id and the clock. -/
inductive MutOp where
  | updateStatus (status actor : String) (details : Option String)
  | freeze (actor : String)
  | unfreeze (actor : String)
  | arbitrate (method actor : String) (arbitration_data : Option String)
  | propose (proposer terms : String)
  | respond (responder : String) (accepted : Bool)
  | resolve (resolver resolution_type resolution_details : String)
deriving DecidableEq, Repr

/-- Run one mutating operation at time `now`; the Bool is the `success` flag
of the returned dict. -/
def runMutOp (s : Store) (k : String) (op : MutOp) (now : Nat) : Bool × Store :=
  match op with
  | .updateStatus st a dt =>
    let r := update_dispute_status s k st a dt now
    (r.1.isOk, r.2)
  | .freeze a =>
    let r := freeze_asset s k a now
    (r.1.isOk, r.2)
  | .unfreeze a =>
    let r := unfreeze_asset s k a now
    (r.1.isOk, r.2)
  | .arbitrate m a ad =>
    let r := initiate_arbitration s k m a ad now
    (r.1.isOk, r.2)
  | .propose p t =>
    let r := propose_settlement s k p t now
    (r.1.isOk, r.2)
  | .respond rsp acc =>
    let r := respond_to_settlement s k rsp acc now
    (r.1.isOk, r.2)
  | .resolve rv rt rd =>
    let r := resolve_dispute s k rv rt rd now
    (r.1.isOk, r.2)

/-- Number of history entries one successful operation appends: 2 for a
`resolve` while the dispute is frozen (the cascading unfreeze entry), else 1. -/
def entriesAdded (s : Store) (k : String) (op : MutOp) : Nat :=
  match op with
  | .resolve _ _ _ =>
    match Store.get s k with
    | some d => if d.freeze_status then 2 else 1
    | none => 1
  | _ => 1

/-- Run a timed sequence of mutating operations. -/
def runMutOps (s : Store) (k : String) : List (MutOp × Nat) → Store
  | [] => s
  | (op, now) :: rest => runMutOps (runMutOp s k op now).2 k rest

/-- Every operation in the sequence reports success. -/
def allOk (s : Store) (k : String) : List (MutOp × Nat) → Bool
  | [] => true
  | (op, now) :: rest => (runMutOp s k op now).1 && allOk (runMutOp s k op now).2 k rest

/-- Total number of history entries the sequence appends (N plus one extra
per resolve-while-frozen). -/
def totalEntries (s : Store) (k : String) : List (MutOp × Nat) → Nat
  | [] => 0
  | (op, now) :: rest => entriesAdded s k op + totalEntries (runMutOp s k op now).2 k rest

/-- History of the dispute stored at `k` (empty when absent). -/
def historyAt (s : Store) (k : String) : List HistoryEntry :=
  match Store.get s k with
  | some d => d.history
  | none => []

/-- Helper for C2: one successful mutating operation appends exactly
`entriesAdded` entries to the history and keeps the old history as a prefix. -/
theorem runMutOp_history (s : Store) (k : String) (op : MutOp) (now : Nat)
    (h : (runMutOp s k op now).1 = true) :
    ∃ tail : List HistoryEntry,
      historyAt (runMutOp s k op now).2 k = historyAt s k ++ tail ∧
      tail.length = entriesAdded s k op := by
  cases hd : Store.get s k with
  | none =>
    exfalso
    cases op <;>
      simp [runMutOp, update_dispute_status, freeze_asset, unfreeze_asset,
        initiate_arbitration, propose_settlement, respond_to_settlement,
        resolve_dispute, Res.isOk, hd] at h
  | some d =>
    cases op with
    | updateStatus st a dt =>
      exact ⟨[{ action := "status_updated", timestamp := now, actor := a,
                 details := orElseStr dt ("Status updated to " ++ st) }],
        by simp [runMutOp, update_dispute_status, hd, historyAt, Store.get_put_self],
        by simp [entriesAdded]⟩
    | freeze a =>
      exact ⟨[{ action := "asset_frozen", timestamp := now, actor := a,
                 details := "Asset frozen during dispute resolution" }],
        by simp [runMutOp, freeze_asset, hd, historyAt, Store.get_put_self],
        by simp [entriesAdded]⟩
    | unfreeze a =>
      exact ⟨[{ action := "asset_unfrozen", timestamp := now, actor := a,
                 details := "Asset unfrozen after dispute resolution" }],
        by simp [runMutOp, unfreeze_asset, hd, historyAt, Store.get_put_self],
        by simp [entriesAdded]⟩
    | arbitrate m a ad =>
      exact ⟨[{ action := "arbitration_initiated", timestamp := now, actor := a,
                 details := "Arbitration initiated using " ++ m ++ " method" }],
        by simp [runMutOp, initiate_arbitration, hd, historyAt, Store.get_put_self],
        by simp [entriesAdded]⟩
    | propose p t =>
      exact ⟨[{ action := "settlement_proposed", timestamp := now, actor := p,
                 details := "Settlement proposed" }],
        by simp [runMutOp, propose_settlement, hd, historyAt, Store.get_put_self],
        by simp [entriesAdded]⟩
    | respond rsp acc =>
      cases hsoff : d.settlement_offer with
      | none =>
        exfalso
        simp [runMutOp, respond_to_settlement, Res.isOk, hd, hsoff] at h
      | some offer =>
        exact ⟨[{ action := "settlement_response", timestamp := now, actor := rsp,
                   details := "Settlement " ++ (if acc then "accepted" else "rejected") }],
          by simp [runMutOp, respond_to_settlement, hd, hsoff, historyAt,
               Store.get_put_self],
          by simp [entriesAdded]⟩
    | resolve rv rt rd =>
      cases hf : d.freeze_status with
      | false =>
        exact ⟨[{ action := "dispute_resolved", timestamp := now, actor := rv,
                   details := "Dispute resolved via " ++ rt }],
          by simp [runMutOp, resolve_dispute, hd, hf, historyAt, Store.get_put_self],
          by simp [entriesAdded, hd, hf]⟩
      | true =>
        exact ⟨[{ action := "dispute_resolved", timestamp := now, actor := rv,
                   details := "Dispute resolved via " ++ rt },
                 { action := "asset_unfrozen", timestamp := now, actor := rv,
                   details := "Asset unfrozen after dispute resolution" }],
          by simp [runMutOp, resolve_dispute, unfreeze_asset, hd, hf, historyAt,
               Store.get_put_self],
          by simp [entriesAdded, hd, hf]⟩

/-- C2: for any sequence of successful mutating operations on one dispute,
the history afterwards is the history before followed by exactly
`totalEntries` appended entries (one per operation, plus one extra for each
`resolve_dispute` run while `freeze_status` was true) - never truncated or
reordered; and the cascading unfreeze of such a resolve appends its own
`asset_unfrozen` entry with the resolver as actor. -/
theorem history_append_only (s : Store) (k : String) (ops : List (MutOp × Nat))
    (h : allOk s k ops = true) :
    (historyAt (runMutOps s k ops) k).length
      = (historyAt s k).length + totalEntries s k ops ∧
    (∃ tail, historyAt (runMutOps s k ops) k = historyAt s k ++ tail) ∧
    (∀ (d : Dispute) (resolver rtype rdetails : String) (t : Nat),
      Store.get s k = some d → d.freeze_status = true →
      historyAt (resolve_dispute s k resolver rtype rdetails t).2 k
        = historyAt s k ++
          [{ action := "dispute_resolved", timestamp := t, actor := resolver,
             details := "Dispute resolved via " ++ rtype },
           { action := "asset_unfrozen", timestamp := t, actor := resolver,
             details := "Asset unfrozen after dispute resolution" }]) := by
  have main : ∀ (ops2 : List (MutOp × Nat)) (s2 : Store), allOk s2 k ops2 = true →
      (historyAt (runMutOps s2 k ops2) k).length
        = (historyAt s2 k).length + totalEntries s2 k ops2 ∧
      ∃ tail, historyAt (runMutOps s2 k ops2) k = historyAt s2 k ++ tail := by
    intro ops2
    induction ops2 with
    | nil =>
      intro s2 _
      exact ⟨by simp [runMutOps, totalEntries], [], by simp [runMutOps]⟩
    | cons p rest ih =>
      obtain ⟨op, now⟩ := p
      intro s2 hok
      simp only [allOk, Bool.and_eq_true] at hok
      obtain ⟨h1, h2⟩ := hok
      obtain ⟨t1, ht1, hlen1⟩ := runMutOp_history s2 k op now h1
      obtain ⟨ihlen, t2, ht2⟩ := ih (runMutOp s2 k op now).2 h2
      constructor
      · simp only [runMutOps, totalEntries]
        rw [ihlen, ht1]
        simp only [List.length_append, hlen1]
        omega
      · exact ⟨t1 ++ t2, by simp only [runMutOps]; rw [ht2, ht1, List.append_assoc]⟩
  obtain ⟨hlen, htail⟩ := main ops s h
  refine ⟨hlen, htail, ?_⟩
  intro d resolver rtype rdetails t hd hf
  simp [resolve_dispute, unfreeze_asset, hd, hf, historyAt, Store.get_put_self]

/-- Concrete operation sequence for the C2 witness: freeze, then resolve while
frozen (exercising the cascading-unfreeze double entry). -/
def c2Ops : List (MutOp × Nat) :=
  [(MutOp.freeze "0xA", 101), (MutOp.resolve "0xR" "arbitration" "done", 102)]

/-- Witness for C2 at a concrete input: on the sample store the sequence is
all-successful and the history grows from 1 entry by 1 + 2 = 3 entries. -/
theorem history_append_only_witness :
    allOk sampleStore sampleId c2Ops = true ∧
    (historyAt (runMutOps sampleStore sampleId c2Ops) sampleId).length
      = (historyAt sampleStore sampleId).length
          + totalEntries sampleStore sampleId c2Ops :=
  ⟨by decide, (history_append_only sampleStore sampleId c2Ops (by decide)).1⟩

end GuardianAI
